import Mathlib

/-!
Verification development for the controllable-browser orchestration engine.

The definitions below are a shallow embedding of the Python sources:
  * `src/src/ai/gemini.py` (plan-response normalization and parsing,
    identical pipeline in `openai_provider.py` / `cohere_provider.py`),
  * `src/src/web/flask_server.py` (per-command orchestration loop,
    task state, provider switching),
  * `src/src/browser/engine.py` (URL normalization, the content-only
    `RequestsBrowser` capability stubs),
  * `src/src/utils/logger.py` (the module-level trace store).

Machine-level effects (network, rendering, wall clock) are modelled as
oracles: functions supplied in an environment record, returning
`Except String _` so that an exception raised by a call is an explicit
value.  Python strings are modelled as `String` / `List Char`.
-/

set_option maxRecDepth 4000

/-- Whitespace for Python's `str.strip` and for `\s` in `re` patterns. -/
def isSpacePy (c : Char) : Bool :=
  c = ' ' || c = '\t' || c = '\n' || c = '\r' || c = '\x0b' || c = '\x0c'

/-- `s` begins with `p`. -/
def beginsWith : List Char → List Char → Bool
  | [], _ => true
  | _ :: _, [] => false
  | p :: ps, c :: cs => p = c && beginsWith ps cs

/-- `needle` occurs as a contiguous segment of `hay` (Python `in` on str). -/
def hasSub (needle : List Char) : List Char → Bool
  | [] => beginsWith needle []
  | c :: rest => beginsWith needle (c :: rest) || hasSub needle rest

/-- Python `str.strip()`: drop whitespace from both ends. -/
def pyStrip (s : List Char) : List Char :=
  ((s.dropWhile isSpacePy).reverse.dropWhile isSpacePy).reverse

/-!
`re.sub(r'//.*', '', json_str)` from `gemini.py` line 98: on every line,
drop from the first `//` to the end of the line (the newline survives:
`.` does not match `\n` without `re.DOTALL`).  The Bool state records
whether we are currently inside a dropped comment.
-/

mutual

/-- Outside a comment: two slashes start a dropped region. -/
def stripCommentsGo : List Char → List Char
  | [] => []
  | '/' :: '/' :: rest => stripCommentsDrop rest
  | c :: rest => c :: stripCommentsGo rest

/-- Inside a comment: drop until the newline, which survives. -/
def stripCommentsDrop : List Char → List Char
  | [] => []
  | '\n' :: rest => '\n' :: stripCommentsGo rest
  | _ :: rest => stripCommentsDrop rest

end

def stripComments (s : List Char) : List Char :=
  stripCommentsGo s

/-!
The fence-extraction regex from `gemini.py` line 91 (same in
`openai_provider.py` line 100):

  `re.search(r'```(?:json)?\s*({.*?})\s*```', response_text, re.DOTALL)`

`re.search` returns the leftmost match; the capture `{.*?}` is lazy, so
it ends at the first `}` that is followed by optional whitespace and a
closing fence.  `\s*` before `{` can be taken maximally because a
whitespace character is never `{`; likewise before the closing fence.
-/

/-- Lazy scan for the capture's closing `}`: the first `}` whose
remainder is optional whitespace followed by three backticks ends the
capture.  Returns the captured characters including that `}`. -/
def lazyClose : List Char → Option (List Char)
  | [] => none
  | c :: rest =>
      if c = '\x7d' && beginsWith "```".data (rest.dropWhile isSpacePy) then
        some [c]
      else
        (lazyClose rest).map (fun cap => c :: cap)

/-- Attempt the tail of the pattern at a position just after the (optional)
`json` label. -/
def tryBrace (t : List Char) : Option (List Char) :=
  match t.dropWhile isSpacePy with
  | '\x7b' :: rest => (lazyClose rest).map (fun cap => '\x7b' :: cap)
  | _ => none

/-- Attempt the full pattern at one start position: a fence, then the
optional `json` label (tried first, as the regex engine does), then the
brace capture. -/
def tryFenceAt (t : List Char) : Option (List Char) :=
  if beginsWith "```".data t then
    let t1 := t.drop 3
    let withLabel :=
      if beginsWith "json".data t1 then tryBrace (t1.drop 4) else none
    match withLabel with
    | some cap => some cap
    | none => tryBrace t1
  else none

/-- `re.search`: try every start position left to right. -/
def searchFence : List Char → Option (List Char)
  | [] => none
  | c :: rest =>
      match tryFenceAt (c :: rest) with
      | some cap => some cap
      | none => searchFence rest

/-! ## JSON values and `json.loads` -/

inductive Json where
  | null : Json
  | bool : Bool → Json
  | num : Int → Json
  | str : String → Json
  | arr : List Json → Json
  | obj : List (String × Json) → Json

def isJsonWs (c : Char) : Bool :=
  c = ' ' || c = '\t' || c = '\n' || c = '\r'

def skipWs (s : List Char) : List Char := s.dropWhile isJsonWs

def hexVal (c : Char) : Option Nat :=
  let n := c.toNat
  if 48 ≤ n && n ≤ 57 then some (n - 48)
  else if 97 ≤ n && n ≤ 102 then some (n - 87)
  else if 65 ≤ n && n ≤ 70 then some (n - 55)
  else none

/-- Body of a JSON string literal, after the opening quote.  Returns the
decoded characters and the remainder after the closing quote.  Raw
control characters are rejected, as `json.loads` does in strict mode. -/
def parseJString : List Char → Option (List Char × List Char)
  | [] => none
  | c :: rest =>
      if c = '"' then some ([], rest)
      else if c = '\\' then
        match rest with
        | [] => none
        | e :: rest2 =>
            if e = 'u' then
              match rest2 with
              | a :: b :: c2 :: d :: rest3 =>
                  match hexVal a, hexVal b, hexVal c2, hexVal d with
                  | some ha, some hb, some hc, some hd =>
                      (parseJString rest3).map (fun p =>
                        (Char.ofNat (((ha * 16 + hb) * 16 + hc) * 16 + hd) :: p.1, p.2))
                  | _, _, _, _ => none
              | _ => none
            else
              let esc : Option Char :=
                if e = '"' then some '"'
                else if e = '\\' then some '\\'
                else if e = '/' then some '/'
                else if e = 'b' then some (Char.ofNat 8)
                else if e = 'f' then some (Char.ofNat 12)
                else if e = 'n' then some '\n'
                else if e = 'r' then some '\r'
                else if e = 't' then some '\t'
                else none
              match esc with
              | some ch => (parseJString rest2).map (fun p => (ch :: p.1, p.2))
              | none => none
      else if c.toNat < 32 then none
      else (parseJString rest).map (fun p => (c :: p.1, p.2))

def isDigitChar (c : Char) : Bool := 48 ≤ c.toNat && c.toNat ≤ 57

def takeDigits (acc : Nat) : List Char → Nat × List Char
  | [] => (acc, [])
  | c :: rest =>
      if isDigitChar c then takeDigits (acc * 10 + (c.toNat - 48)) rest
      else (acc, c :: rest)

/-- Integer numerals only: the sources never feed the parser a float,
and a fractional or exponent suffix is treated as a parse failure. -/
def parseIntNum (s : List Char) : Option (Int × List Char) :=
  match s with
  | '-' :: c :: rest =>
      if isDigitChar c then
        let p := takeDigits 0 (c :: rest)
        match p.2 with
        | '.' :: _ => none
        | 'e' :: _ => none
        | 'E' :: _ => none
        | _ => some (-(p.1 : Int), p.2)
      else none
  | c :: rest =>
      if isDigitChar c then
        let p := takeDigits 0 (c :: rest)
        match p.2 with
        | '.' :: _ => none
        | 'e' :: _ => none
        | 'E' :: _ => none
        | _ => some ((p.1 : Int), p.2)
      else none
  | [] => none

mutual

def parseValue : Nat → List Char → Option (Json × List Char)
  | 0, _ => none
  | fuel + 1, s =>
      match skipWs s with
      | [] => none
      | c :: rest =>
          if c = '\x7b' then
            match skipWs rest with
            | '\x7d' :: r2 => some (.obj [], r2)
            | r1 => (parseObjItems fuel r1).map (fun p => (.obj p.1, p.2))
          else if c = '[' then
            match skipWs rest with
            | ']' :: r2 => some (.arr [], r2)
            | r1 => (parseArrItems fuel r1).map (fun p => (.arr p.1, p.2))
          else if c = '"' then
            (parseJString rest).map (fun p => (.str (String.mk p.1), p.2))
          else if c = 't' then
            if beginsWith "rue".data rest then some (.bool true, rest.drop 3) else none
          else if c = 'f' then
            if beginsWith "alse".data rest then some (.bool false, rest.drop 4) else none
          else if c = 'n' then
            if beginsWith "ull".data rest then some (.null, rest.drop 3) else none
          else
            (parseIntNum (c :: rest)).map (fun p => (.num p.1, p.2))

def parseObjItems : Nat → List Char → Option (List (String × Json) × List Char)
  | 0, _ => none
  | fuel + 1, s =>
      match s with
      | '"' :: rest =>
          match parseJString rest with
          | none => none
          | some (key, r1) =>
              match skipWs r1 with
              | ':' :: r2 =>
                  match parseValue fuel r2 with
                  | none => none
                  | some (v, r3) =>
                      match skipWs r3 with
                      | ',' :: r4 =>
                          (parseObjItems fuel (skipWs r4)).map
                            (fun p => ((String.mk key, v) :: p.1, p.2))
                      | '\x7d' :: r4 => some ([(String.mk key, v)], r4)
                      | _ => none
              | _ => none
      | _ => none

def parseArrItems : Nat → List Char → Option (List Json × List Char)
  | 0, _ => none
  | fuel + 1, s =>
      match parseValue fuel s with
      | none => none
      | some (v, r1) =>
          match skipWs r1 with
          | ',' :: r2 => (parseArrItems fuel (skipWs r2)).map (fun p => (v :: p.1, p.2))
          | ']' :: r2 => some ([v], r2)
          | _ => none

end

/-- `json.loads`: one value, then only trailing whitespace. -/
def pyLoads (s : List Char) : Option Json :=
  match parseValue (s.length + 1) s with
  | some (v, rest) => if (skipWs rest).isEmpty then some v else none
  | none => none

/-! ## `create_action_plan` normalization pipeline (`gemini.py` 87-114) -/

/-- The fallback plan returned on any parse or call failure
(`gemini.py` lines 109 and 114). -/
def fallback_plan (user_input : String) : Json :=
  .obj [("actions", .arr [.obj [("type", .str "answer_directly"),
                                ("question", .str user_input)]])]

/-- Fence extraction step: the captured group when the regex matches,
otherwise the whole response (`gemini.py` lines 91-95). -/
def extract_json_str (response_text : List Char) : List Char :=
  match searchFence response_text with
  | some cap => cap
  | none => response_text

/-- The plan construction applied to a raw model response: fence
extraction, comment stripping, `strip()`, `json.loads`; any parse
failure yields the fallback plan (`gemini.py` lines 91-114; the
`openai_provider.py` pipeline at lines 99-123 is identical). -/
def create_action_plan (user_input : String) (response_text : List Char) : Json :=
  let json_str := stripComments (extract_json_str response_text)
  match pyLoads (pyStrip json_str) with
  | some plan => plan
  | none => fallback_plan user_input


/-! ## Python value helpers used by the orchestrator -/

/-- Python truthiness of a JSON-shaped value (`if not action_plan`,
`if not url`, ...). -/
def pyTruthy : Json → Bool
  | .null => false
  | .bool b => b
  | .num n => n ≠ 0
  | .str s => s ≠ ""
  | .arr xs => ¬ xs.isEmpty
  | .obj kvs => ¬ kvs.isEmpty

/-- Dict lookup with Python semantics for duplicate keys: the last
binding wins (as `json.loads` builds the dict by assignment). -/
def objLookup (kvs : List (String × Json)) (k : String) : Option Json :=
  match kvs with
  | [] => none
  | (k', v) :: rest =>
      match objLookup rest k with
      | some v' => some v'
      | none => if k' = k then some v else none

/-- `x.get(k)`: `None` for a missing key; an `AttributeError` when the
receiver is not a dict. -/
def pyDictGet (j : Json) (k : String) : Except String (Option Json) :=
  match j with
  | .obj kvs => .ok (objLookup kvs k)
  | _ => .error "AttributeError: object has no attribute get"

/-- `k in x` for a string key: key test on dicts, membership on lists
(a string equals only an equal string), substring test on strings, and
a `TypeError` otherwise. -/
def pyContains (j : Json) (k : String) : Except String Bool :=
  match j with
  | .obj kvs => .ok ((objLookup kvs k).isSome)
  | .arr xs => .ok (xs.any (fun x => match x with | .str s => s = k | _ => false))
  | .str s => .ok (hasSub k.data s.data)
  | _ => .error "TypeError: argument is not iterable"

/-- `x[k]` for a string key. -/
def pySubscript (j : Json) (k : String) : Except String Json :=
  match j with
  | .obj kvs =>
      match objLookup kvs k with
      | some v => .ok v
      | none => .error "KeyError"
  | _ => .error "TypeError: indices must be integers"

/-- `len(x)`. -/
def pyLen (j : Json) : Except String Nat :=
  match j with
  | .obj kvs => .ok kvs.length
  | .arr xs => .ok xs.length
  | .str s => .ok s.length
  | _ => .error "TypeError: object has no len"

/-- `for a in x`: list elements, string characters (as one-character
strings), dict keys; a `TypeError` otherwise. -/
def pyIter (j : Json) : Except String (List Json) :=
  match j with
  | .arr xs => .ok xs
  | .str s => .ok (s.data.map (fun c => .str (String.mk [c])))
  | .obj kvs => .ok (kvs.map (fun kv => .str kv.1))
  | _ => .error "TypeError: object is not iterable"

/-- Rendering of a value inside an f-string (`f"{action_type}"`). -/
def pyShow : Json → String
  | .null => "None"
  | .bool true => "True"
  | .bool false => "False"
  | .num n => toString n
  | .str s => s
  | .arr _ => "[...]"
  | .obj _ => "\x7b...\x7d"

/-- `f"{result.get('error')}"`. -/
def pyShowOpt : Option String → String
  | none => "None"
  | some m => m

/-- A value used where the code needs a Python `str`; a non-string here
surfaces as a step-level `TypeError` (caught by the orchestrator's
outer boundary). -/
def pyExpectStr : Json → Except String String
  | .str s => .ok s
  | _ => .error "TypeError: expected str"

/-- `action_type == 'browse'`-style comparison: a JSON value equals a
string literal only when it is that string. -/
def Json.isStr (j : Json) (k : String) : Bool :=
  match j with
  | .str s => s = k
  | _ => false

/-! ## Execution trace and task state (`logger.py`, `flask_server.py`) -/

/-- One trace entry: `{"type": ..., "message": ..., "url"?: ...}`. -/
structure LogEntry where
  kind : String
  message : String
  url : Option String
deriving DecidableEq

/-- Mutable module state.  `loggerLogs` models
`src.utils.logger.current_task_logs`, the list the `log_*` helpers
append to; `flaskLogs` models the distinct `flask_server.py` global of
the same name, the one reset by `reset_task_state` and returned in the
Task Result.  `lastUrl` and `lastShot` are `last_processed_url` /
`last_screenshot`. -/
structure St where
  loggerLogs : List LogEntry
  flaskLogs : List LogEntry
  lastUrl : Option Json
  lastShot : Option String

/-- `logger.log_step`: appends an info entry to the logger module's
list (`logger.py` lines 45-48). -/
def log_step (m : String) (s : St) : St :=
  { s with loggerLogs := s.loggerLogs ++ [⟨"info", m, none⟩] }

/-- `logger.log_error` (`logger.py` lines 50-53). -/
def log_error (m : String) (s : St) : St :=
  { s with loggerLogs := s.loggerLogs ++ [⟨"error", m, none⟩] }

/-- `logger.log_browser` called without a url (`logger.py` lines 55-61;
every call in `process_user_command` omits the url argument). -/
def log_browser (m : String) (s : St) : St :=
  { s with loggerLogs := s.loggerLogs ++ [⟨"browser", m, none⟩] }

/-- `logger.log_ai` (`logger.py` lines 63-66). -/
def log_ai (m : String) (s : St) : St :=
  { s with loggerLogs := s.loggerLogs ++ [⟨"ai", m, none⟩] }

/-- `flask_server.reset_task_state` (lines 136-141): clears the flask
module's `current_task_logs`, `last_processed_url`, `last_screenshot`.
The logger module's list is untouched. -/
def reset_task_state (s : St) : St :=
  { s with flaskLogs := [], lastUrl := none, lastShot := none }

/-- The response bundle of `process_user_command`. -/
structure TaskRes where
  final_result : String
  logs : List LogEntry
  processed_url : Option Json
  screenshot : Option String

/-! ## Device and provider oracles -/

/-- `navigate` / `click` / `type` return `{"success": ...}` or
`{"success": False, "error": ...}` dictionaries. -/
structure NavResult where
  success : Bool
  error : Option String
deriving DecidableEq

/-- A browsing device as the orchestrator sees it.  Each operation is
an oracle returning `Except`: a `.error` is an exception escaping the
call (the concrete engines catch internally and so always answer
`.ok`, but the orchestrator is verified against any behaviour). -/
structure Device where
  isPlaywright : Bool
  navigate : String → Except String NavResult
  click : String → Except String NavResult
  typeInto : String → String → Except String NavResult
  take_screenshot : String → Except String (Option String)
  get_content : Unit → Except String (Option String)

/-- The active AI provider as the orchestrator sees it:
`create_action_plan`, `generate_response`, `process_content`. -/
structure ProviderOracle where
  plan : String → Except String Json
  generate_response : String → Except String String
  process_content : String → String → String → Except String String

/-- The ambient module state of `flask_server.py` that
`process_user_command` reads: the active provider (or none), the
browser engine, and the wall clock used to name screenshots (modelled
as an opaque relative path per step index). -/
structure Env where
  ai_client : Option ProviderOracle
  browser : Device
  screenshotRel : Nat → String

/-! ## Browser engine details used by the claims (`engine.py`) -/

/-- URL scheme normalization performed inside `navigate`
(`engine.py` lines 101-103 and 250-252): scheme-less URLs get an
`https://` prefix.  This is local to `navigate`; the orchestrator never
sees the normalized form. -/
def normalize_url (url : String) : String :=
  if beginsWith "http://".data url.data || beginsWith "https://".data url.data then url
  else "https://" ++ url

/-- `RequestsBrowser.click` (`engine.py` lines 288-291): logs an error
and returns an explicit unsupported-failure dict. -/
def requests_click (_selector : String) (s : St) : St × NavResult :=
  (log_error "RequestsBrowser does not support clicking elements. Use PlaywrightBrowser for this feature." s,
   ⟨false, some "RequestsBrowser does not support clicking elements"⟩)

/-- `RequestsBrowser.type` (`engine.py` lines 293-296). -/
def requests_type (_selector _text : String) (s : St) : St × NavResult :=
  (log_error "RequestsBrowser does not support typing text. Use PlaywrightBrowser for this feature." s,
   ⟨false, some "RequestsBrowser does not support typing text"⟩)

/-- `RequestsBrowser.take_screenshot` (`engine.py` lines 298-301): logs
an error and returns `None` — the bare null, with no error payload. -/
def requests_take_screenshot (_file_path : Option String) (s : St) : St × Option String :=
  (log_error "RequestsBrowser does not support taking screenshots. Use PlaywrightBrowser for this feature." s,
   none)

/-! ## The execution loop (`flask_server.process_user_command`, 143-289) -/

/-- Fixed result strings of `process_user_command`. -/
def noProviderMsg : String :=
  "I couldn't process your request because no AI provider is initialized. Please check your configuration."

def couldNotPlanMsg : String :=
  "I couldn't plan how to handle your request. Please try again with a clearer instruction."

def defaultSuccessMsg : String := "Task completed successfully."

def extractFailMsg : String := "I couldn't extract content from the page."

def apologyMsg : String :=
  "I encountered an error while processing your request. Please try again."

/-- The screenshot sub-block shared by the browse and click branches
(`flask_server.py` lines 201-207 and 238-244): only on the Playwright
engine; a non-null returned path stores the *relative* path in
`last_screenshot`. -/
def shotBlock (env : Env) (i : Nat) (okMsg : String) (s : St) : St × Except String Unit :=
  if env.browser.isPlaywright then
    let rel := env.screenshotRel i
    match env.browser.take_screenshot ("static/" ++ rel) with
    | .error e => (s, .error e)
    | .ok full_path =>
        if full_path.isSome then
          let s := { s with lastShot := some rel }
          let s := log_step okMsg s
          (s, .ok ())
        else (s, .ok ())
  else (s, .ok ())

/-- Resume a step after the screenshot sub-block: an exception escapes,
otherwise the running `final_result` is kept. -/
def afterShot (p : St × Except String Unit) (fr : String) : St × Except String String :=
  match p with
  | (s, .error e) => (s, .error e)
  | (s, .ok ()) => (s, .ok fr)

/-- The `answer_directly` branch (`flask_server.py` lines 182-186). -/
def answer_branch (client : ProviderOracle) (user_input : String)
    (action : Json) (s : St) : St × Except String String :=
  match pyDictGet action "question" with
  | .error e => (s, .error e)
  | .ok q? =>
  match pyExpectStr (q?.getD (.str user_input)) with
  | .error e => (s, .error e)
  | .ok question =>
  let s := log_ai ("Generating direct answer for: " ++ question) s
  match client.generate_response question with
  | .error e => (s, .error e)
  | .ok ans =>
      let s := log_ai "Answer generated successfully" s
      (s, .ok ans)

/-- The `browse` branch (`flask_server.py` lines 188-209).  Note
`last_processed_url` is assigned directly after the navigate call,
before the success check. -/
def browse_branch (env : Env) (i : Nat) (action : Json) (fr : String)
    (s : St) : St × Except String String :=
  match pyDictGet action "url" with
  | .error e => (s, .error e)
  | .ok url? =>
  let urlJ := url?.getD .null
  if ¬ pyTruthy urlJ then
    (log_error "URL not provided for browse action" s, .ok fr)
  else
    let s := log_browser ("Navigating to URL: " ++ pyShow urlJ) s
    let navCall : Except String NavResult :=
      match urlJ with
      | .str u => env.browser.navigate u
      | _ => .ok ⟨false, some "AttributeError: startswith"⟩
    match navCall with
    | .error e => (s, .error e)
    | .ok result =>
    let s := { s with lastUrl := some urlJ }
    if result.success then
      let s := log_browser "Navigation successful" s
      afterShot (shotBlock env i "Screenshot captured and saved" s) fr
    else
      (log_error ("Failed to navigate: " ++ pyShowOpt result.error) s, .ok fr)

/-- The `extract_content` branch (`flask_server.py` lines 211-224). -/
def extract_branch (env : Env) (client : ProviderOracle) (user_input : String)
    (action : Json) (s : St) : St × Except String String :=
  let s := log_browser "Extracting content from current page" s
  match env.browser.get_content () with
  | .error e => (s, .error e)
  | .ok content? =>
  if (content?.getD "") ≠ "" then
    let content := content?.getD ""
    let s := log_browser "Content extracted successfully" s
    match pyDictGet action "processing_goal" with
    | .error e => (s, .error e)
    | .ok goal? =>
    match pyExpectStr (goal?.getD (.str "Analyze the content")) with
    | .error e => (s, .error e)
    | .ok goal =>
    let s := log_ai ("Processing content for: " ++ goal) s
    match client.process_content content user_input goal with
    | .error e => (s, .error e)
    | .ok txt =>
        let s := log_ai "Content processing completed" s
        (s, .ok txt)
  else
    (log_error "Failed to extract content" s, .ok extractFailMsg)

/-- The `click` branch (`flask_server.py` lines 226-246). -/
def click_branch (env : Env) (i : Nat) (action : Json) (fr : String)
    (s : St) : St × Except String String :=
  match pyDictGet action "selector" with
  | .error e => (s, .error e)
  | .ok sel? =>
  let selJ := sel?.getD .null
  if ¬ pyTruthy selJ then
    (log_error "Selector not provided for click action" s, .ok fr)
  else
    let s := log_browser ("Clicking element: " ++ pyShow selJ) s
    let clickCall : Except String NavResult :=
      match selJ with
      | .str sel => env.browser.click sel
      | _ => .ok ⟨false, some "Error"⟩
    match clickCall with
    | .error e => (s, .error e)
    | .ok result =>
    if result.success then
      let s := log_browser "Click successful" s
      afterShot (shotBlock env i "Screenshot captured after click" s) fr
    else
      (log_error ("Failed to click: " ++ pyShowOpt result.error) s, .ok fr)

/-- The `type` branch (`flask_server.py` lines 248-262). -/
def type_branch (env : Env) (action : Json) (fr : String)
    (s : St) : St × Except String String :=
  match pyDictGet action "selector" with
  | .error e => (s, .error e)
  | .ok sel? =>
  match pyDictGet action "text" with
  | .error e => (s, .error e)
  | .ok text? =>
  let selJ := sel?.getD .null
  let textJ := text?.getD .null
  if ¬ pyTruthy selJ || ¬ pyTruthy textJ then
    (log_error "Selector or text not provided for type action" s, .ok fr)
  else
    let s := log_browser ("Typing '" ++ pyShow textJ ++ "' into: " ++ pyShow selJ) s
    let typeCall : Except String NavResult :=
      match selJ, textJ with
      | .str sel, .str txt => env.browser.typeInto sel txt
      | _, _ => .ok ⟨false, some "Error"⟩
    match typeCall with
    | .error e => (s, .error e)
    | .ok result =>
    if result.success then
      (log_browser "Typing successful" s, .ok fr)
    else
      (log_error ("Failed to type: " ++ pyShowOpt result.error) s, .ok fr)

/-- The `clarify` branch (`flask_server.py` lines 264-267). -/
def clarify_branch (action : Json) (s : St) : St × Except String String :=
  match pyDictGet action "message" with
  | .error e => (s, .error e)
  | .ok m? =>
  let mJ := m?.getD (.str "Could you please clarify your request?")
  let s := log_step ("Clarification needed: " ++ pyShow mJ) s
  (s, .ok (pyShow mJ))

/-- One iteration of the `for i, action in enumerate(...)` loop
(`flask_server.py` lines 178-270): read the action's tag, log the step
header, and dispatch to the branch for the tag.  Returns the updated
state and either the (possibly updated) running `final_result` or the
exception escaping the step. -/
def runAction (env : Env) (client : ProviderOracle) (user_input : String)
    (i : Nat) (action : Json) (fr : String) (s : St) : St × Except String String :=
  match pyDictGet action "type" with
  | .error e => (s, .error e)
  | .ok tyOpt =>
  let tyJ := tyOpt.getD .null
  let s := log_step ("Executing step " ++ toString (i + 1) ++ ": " ++ pyShow tyJ) s
  if tyJ.isStr "answer_directly" then answer_branch client user_input action s
  else if tyJ.isStr "browse" then browse_branch env i action fr s
  else if tyJ.isStr "extract_content" then extract_branch env client user_input action s
  else if tyJ.isStr "click" then click_branch env i action fr s
  else if tyJ.isStr "type" then type_branch env action fr s
  else if tyJ.isStr "clarify" then clarify_branch action s
  else (log_error ("Unknown action type: " ++ pyShow tyJ) s, .ok fr)

/-- The loop over the plan's actions: each step either updates the
running `final_result` or raises, aborting the remaining steps (the
exception is handled once, at the top level). -/
def runActions (env : Env) (client : ProviderOracle) (user_input : String) :
    List Json → Nat → String → St → St × Except String String
  | [], _, fr, s => (s, .ok fr)
  | a :: rest, i, fr, s =>
      match runAction env client user_input i a fr s with
      | (s', .ok fr') => runActions env client user_input rest (i + 1) fr' s'
      | (s', .error e) => (s', .error e)

/-- The body of the `try:` block of `process_user_command`
(`flask_server.py` lines 159-277): planning, the plan-shape guard, and
the execution loop.  `.error` is an exception escaping the body. -/
def process_body (env : Env) (client : ProviderOracle) (user_input : String)
    (s : St) : St × Except String TaskRes :=
  let s := log_step "Planning action steps..." s
  match client.plan user_input with
  | .error e => (s, .error e)
  | .ok action_plan =>
  if ¬ pyTruthy action_plan then
    let s := log_error "Failed to create a valid action plan" s
    (s, .ok ⟨couldNotPlanMsg, s.flaskLogs, none, none⟩)
  else
    match pyContains action_plan "actions" with
    | .error e => (s, .error e)
    | .ok hasKey =>
    if ¬ hasKey then
      let s := log_error "Failed to create a valid action plan" s
      (s, .ok ⟨couldNotPlanMsg, s.flaskLogs, none, none⟩)
    else
      match pySubscript action_plan "actions" with
      | .error e => (s, .error e)
      | .ok actionsJ =>
      match pyLen actionsJ with
      | .error e => (s, .error e)
      | .ok n =>
      let s := log_step ("Created action plan with " ++ toString n ++ " steps") s
      match pyIter actionsJ with
      | .error e => (s, .error e)
      | .ok acts =>
      match runActions env client user_input acts 0 defaultSuccessMsg s with
      | (s, .ok fr) => (s, .ok ⟨fr, s.flaskLogs, s.lastUrl, s.lastShot⟩)
      | (s, .error e) => (s, .error e)

/-- `process_user_command` (`flask_server.py` lines 143-289): reset the
per-command state, guard on a missing provider, run the body, and
convert any exception escaping it into an apology result built from
the state accumulated so far. -/
def process_user_command (env : Env) (user_input : String) (s0 : St) : TaskRes :=
  let s := reset_task_state s0
  match env.ai_client with
  | none =>
      let s := log_error "No AI provider initialized" s
      ⟨noProviderMsg, s.flaskLogs, none, none⟩
  | some client =>
      let s := log_step ("Received user command: " ++ user_input) s
      match process_body env client user_input s with
      | (_, .ok r) => r
      | (s, .error e) =>
          let s := log_error ("Error processing command: " ++ e) s
          let s := log_error "Traceback (most recent call last): ..." s
          ⟨apologyMsg, s.flaskLogs, s.lastUrl, s.lastShot⟩

/-! ## Provider switching (`flask_server.py` 321-344, 84-112;
`provider_factory.py` 49-90) -/

/-- The provider-related globals of `flask_server.py`: the active
client instance and its name.  The client type is abstract (`C`). -/
structure AppState (C : Type) where
  ai_client : Option C
  current_provider_name : Option String

/-- The configuration and registry environment a switch request runs
against: whether a provider has a non-empty config section, the
factory's `create_provider` (which may return `none` or raise), and
`available_providers` (the names whose `<NAME>_API_KEY` is set). -/
structure SwitchEnv (C : Type) where
  hasConfig : String → Bool
  create_provider : String → Except String (Option C)
  available : List String

/-- `initialize_ai_provider` (`flask_server.py` lines 84-112): guards on
an empty name and a missing config section, calls the factory inside a
`try`, and only on a non-null instance replaces both globals at once. -/
def init_ai_provider {C : Type} (env : SwitchEnv C) (name : String)
    (st : AppState C) : Bool × AppState C :=
  if name = "" then (false, st)
  else if ¬ env.hasConfig name then (false, st)
  else
    match env.create_provider name with
    | .ok (some c) => (true, ⟨some c, some name⟩)
    | .ok none => (false, st)
    | .error _ => (false, st)

/-- A response of the `/api/providers/switch` route. -/
inductive SwitchResp where
  | ok : String → SwitchResp
  | err : Nat → String → SwitchResp
deriving DecidableEq

/-- `switch_ai_provider` (`flask_server.py` lines 321-344): reject a
missing or unavailable name (400), no-op when already active, otherwise
re-initialize, answering 500 when that fails. -/
def switch_ai_provider {C : Type} (env : SwitchEnv C) (provider : Option String)
    (st : AppState C) : SwitchResp × AppState C :=
  match provider with
  | none => (.err 400 "No provider specified", st)
  | some p =>
      if p = "" then (.err 400 "No provider specified", st)
      else if ¬ env.available.contains p then
        (.err 400 ("Provider '" ++ p ++ "' is not available"), st)
      else if st.current_provider_name = some p then
        (.ok ("Already using " ++ p), st)
      else
        match init_ai_provider env p st with
        | (true, st') => (.ok ("Successfully switched to " ++ p), st')
        | (false, st') => (.err 500 ("Failed to switch to " ++ p), st')

/-! ## Shared lemmas: the flask-side log list is never appended to -/

theorem log_step_flask (m : String) (s : St) : (log_step m s).flaskLogs = s.flaskLogs := rfl
theorem log_error_flask (m : String) (s : St) : (log_error m s).flaskLogs = s.flaskLogs := rfl
theorem log_browser_flask (m : String) (s : St) : (log_browser m s).flaskLogs = s.flaskLogs := rfl
theorem log_ai_flask (m : String) (s : St) : (log_ai m s).flaskLogs = s.flaskLogs := rfl

theorem shotBlock_flask (env : Env) (i : Nat) (m : String) (s : St) :
    (shotBlock env i m s).1.flaskLogs = s.flaskLogs := by
  unfold shotBlock
  split
  · cases h : env.browser.take_screenshot ("static/" ++ env.screenshotRel i) with
    | error e => simp [h]
    | ok fp => cases fp <;> simp [h, log_step]
  · rfl

theorem afterShot_flask (p : St × Except String Unit) (fr : String) :
    (afterShot p fr).1.flaskLogs = p.1.flaskLogs := by
  rcases p with ⟨s, r⟩
  cases r with
  | error e => rfl
  | ok u => cases u; rfl

theorem answer_branch_flask (client : ProviderOracle) (u : String) (a : Json) (s : St) :
    (answer_branch client u a s).1.flaskLogs = s.flaskLogs := by
  unfold answer_branch
  repeat' (first | split | (simp only []))
  all_goals rfl

theorem browse_branch_flask (env : Env) (i : Nat) (a : Json) (fr : String) (s : St) :
    (browse_branch env i a fr s).1.flaskLogs = s.flaskLogs := by
  unfold browse_branch
  repeat' (first | split | (simp only []))
  all_goals (first | rfl | simp [afterShot_flask, shotBlock_flask, log_browser])

theorem extract_branch_flask (env : Env) (client : ProviderOracle) (u : String)
    (a : Json) (s : St) :
    (extract_branch env client u a s).1.flaskLogs = s.flaskLogs := by
  unfold extract_branch
  repeat' (first | split | (simp only []))
  all_goals rfl

theorem click_branch_flask (env : Env) (i : Nat) (a : Json) (fr : String) (s : St) :
    (click_branch env i a fr s).1.flaskLogs = s.flaskLogs := by
  unfold click_branch
  repeat' (first | split | (simp only []))
  all_goals (first | rfl | simp [afterShot_flask, shotBlock_flask, log_browser])

theorem type_branch_flask (env : Env) (a : Json) (fr : String) (s : St) :
    (type_branch env a fr s).1.flaskLogs = s.flaskLogs := by
  unfold type_branch
  repeat' (first | split | (simp only []))
  all_goals rfl

theorem clarify_branch_flask (a : Json) (s : St) :
    (clarify_branch a s).1.flaskLogs = s.flaskLogs := by
  unfold clarify_branch
  repeat' (first | split | (simp only []))
  all_goals rfl

theorem runAction_flask (env : Env) (client : ProviderOracle) (u : String)
    (i : Nat) (a : Json) (fr : String) (s : St) :
    (runAction env client u i a fr s).1.flaskLogs = s.flaskLogs := by
  unfold runAction
  repeat' (first | split | (simp only []))
  all_goals (first
    | rfl
    | simp [answer_branch_flask, browse_branch_flask, extract_branch_flask,
            click_branch_flask, type_branch_flask, clarify_branch_flask,
            log_step, log_error])

theorem pairFst_of_eq {α β : Type} {p : α × β} {a : α} {b : β}
    (h : p = (a, b)) : a = p.1 := by rw [h]

theorem runActions_flask (env : Env) (client : ProviderOracle) (u : String) :
    ∀ (acts : List Json) (i : Nat) (fr : String) (s : St),
      (runActions env client u acts i fr s).1.flaskLogs = s.flaskLogs := by
  intro acts
  induction acts with
  | nil => intro i fr s; rfl
  | cons a rest ih =>
      intro i fr s
      unfold runActions
      rcases h : runAction env client u i a fr s with ⟨s', r⟩
      have hs' : s'.flaskLogs = s.flaskLogs := by
        have t := runAction_flask env client u i a fr s
        rw [h] at t; exact t
      cases r with
      | ok fr' => exact (ih (i + 1) fr' s').trans hs'
      | error e => exact hs'

theorem process_body_flask (env : Env) (client : ProviderOracle) (u : String) (s : St) :
    (process_body env client u s).1.flaskLogs = s.flaskLogs := by
  unfold process_body
  repeat' (first | split | (simp only []))
  all_goals (first
    | rfl
    | (rename_i heq
       rw [pairFst_of_eq heq, runActions_flask]
       rfl))

/-- Any `.ok` Task Result of the body carries the final state's
`flaskLogs` as its `logs` field. -/
theorem process_body_ok_logs (env : Env) (client : ProviderOracle) (u : String) (s : St)
    (r : TaskRes) (hr : (process_body env client u s).2 = .ok r) :
    r.logs = s.flaskLogs := by
  unfold process_body at hr
  repeat' (first | (split at hr) | (simp only [] at hr))
  all_goals first
    | (injection hr with h; subst h; rfl)
    | (injection hr with h; subst h
       rename_i heq
       show _ = s.flaskLogs
       simp only []
       rw [pairFst_of_eq heq, runActions_flask]
       rfl)
    | cases hr

/-! ## Claim theorems -/

/-- C1: the claim says the Task Result's `logs` field is the execution
trace with at least one entry once planning has occurred, appended to
by every `log_*` call.  The code cannot deliver this: `flask_server.py`
returns its module-global `current_task_logs`, while every `log_*`
helper appends to the distinct `src.utils.logger.current_task_logs`.
Hence the returned `logs` list is `[]` for every environment, command
and prior state — planning or not. -/
theorem c1_returned_trace_always_empty (env : Env) (user_input : String) (s0 : St) :
    (process_user_command env user_input s0).logs = [] := by
  unfold process_user_command
  cases henv : env.ai_client with
  | none => rfl
  | some client =>
      simp only []
      rcases hb : process_body env client user_input
          (log_step ("Received user command: " ++ user_input) (reset_task_state s0))
        with ⟨sF, r⟩
      cases r with
      | ok rr =>
          have h2 := process_body_ok_logs env client user_input
            (log_step ("Received user command: " ++ user_input) (reset_task_state s0))
            rr (by rw [hb])
          exact h2
      | error e =>
          have h2 := process_body_flask env client user_input
            (log_step ("Received user command: " ++ user_input) (reset_task_state s0))
          rw [hb] at h2
          exact h2

/-- The empty module state at process start. -/
def st0 : St := ⟨[], [], none, none⟩

/-- A benign interactive device: every call succeeds. -/
def stubDevice : Device :=
  ⟨true, fun _ => .ok ⟨true, none⟩, fun _ => .ok ⟨true, none⟩,
   fun _ _ => .ok ⟨true, none⟩, fun p => .ok (some p), fun _ => .ok (some "content")⟩

/-- C6: an exception escaping the per-step handling after planning has
started is caught once at the top level of `process_user_command` and
converted into a well-formed Task Result with the generic apology
`final_result`, carrying the trace list, `processed_url` and
`screenshot` accumulated up to the fault.  No exception outcome exists
in the function's result type: it is total for every provider and
device behaviour. -/
theorem c6_fault_downgraded (env : Env) (client : ProviderOracle)
    (u : String) (s0 : St) (sF : St) (e : String)
    (H1 : env.ai_client = some client)
    (H2 : process_body env client u
            (log_step ("Received user command: " ++ u) (reset_task_state s0)) =
          (sF, .error e)) :
    process_user_command env u s0 =
      ⟨apologyMsg, sF.flaskLogs, sF.lastUrl, sF.lastShot⟩ := by
  unfold process_user_command
  simp only [H1]
  rw [H2]
  rfl

def c6_client : ProviderOracle :=
  ⟨fun _ => .error "boom", fun _ => .ok "x", fun _ _ _ => .ok "y"⟩

def c6_env : Env := ⟨some c6_client, stubDevice, fun _ => "screenshots/shot.png"⟩

theorem c6_fault_downgraded_witness :
    process_user_command c6_env "hi" st0 =
      ⟨apologyMsg, [], none, none⟩ :=
  c6_fault_downgraded c6_env c6_client "hi" st0
    ⟨[⟨"info", "Received user command: hi", none⟩,
      ⟨"info", "Planning action steps...", none⟩], [], none, none⟩
    "boom" rfl rfl

/-- Provider response used against C2: a syntactically valid JSON
object that lacks the `actions` key. -/
def c2_resp : List Char := "\x7b\"foo\": \"bar\"\x7d".data

def c2_client : ProviderOracle :=
  ⟨fun u => .ok (create_action_plan u c2_resp),
   fun q => .ok ("ANS " ++ q), fun _ _ _ => .ok "PROC"⟩

def c2_env : Env := ⟨some c2_client, stubDevice, fun _ => "screenshots/shot.png"⟩

/-- C2 counterexample: a parsed object missing the `actions` key is
*not* turned into the fallback plan — `create_action_plan` returns the
object unchanged and the orchestrator then completes with the fixed
"could not plan" result, contradicting both halves of the claim. -/
theorem c2_counterexample :
    create_action_plan "cmd" c2_resp = .obj [("foo", .str "bar")] ∧
    create_action_plan "cmd" c2_resp ≠ fallback_plan "cmd" ∧
    (process_user_command c2_env "cmd" st0).final_result = couldNotPlanMsg := by
  refine ⟨rfl, ?_, rfl⟩
  intro h
  rw [show create_action_plan "cmd" c2_resp = Json.obj [("foo", Json.str "bar")] from rfl] at h
  simp [fallback_plan] at h

/-- C2 amended: a response that fails to parse (malformed structure,
or anything else that defeats `json.loads` after normalization) yields
exactly the single-action fallback plan, and when the provider hands
the orchestrator that fallback plan, the orchestrator executes it and
returns the provider's answer for the original input.  A successfully
parsed object missing the `actions` key is instead returned unchanged
and the orchestrator completes with the fixed "could not plan"
result (see the counterexample). -/
theorem c2_amended :
    (∀ (u : String) (resp : List Char),
        pyLoads (pyStrip (stripComments (extract_json_str resp))) = none →
        create_action_plan u resp = fallback_plan u) ∧
    (∀ (env : Env) (client : ProviderOracle) (u ans : String) (s0 : St),
        env.ai_client = some client →
        client.plan u = .ok (fallback_plan u) →
        client.generate_response u = .ok ans →
        (process_user_command env u s0).final_result = ans) := by
  constructor
  · intro u resp h
    unfold create_action_plan
    simp only [h]
  · intro env client u ans s0 H1 H2 H3
    simp [process_user_command, process_body, runActions, runAction,
          answer_branch, fallback_plan, pyDictGet, pyExpectStr, objLookup,
          pyTruthy, pyContains, pySubscript, pyLen, pyIter, Json.isStr,
          H1, H2, H3, log_step, log_ai, log_error]

def c2w_client : ProviderOracle :=
  ⟨fun u => .ok (fallback_plan u), fun q => .ok ("ANS " ++ q), fun _ _ _ => .ok "PROC"⟩

def c2w_env : Env := ⟨some c2w_client, stubDevice, fun _ => "screenshots/shot.png"⟩

theorem c2_amended_witness :
    create_action_plan "hi" "this is not a plan".data = fallback_plan "hi" ∧
    (process_user_command c2w_env "hi" st0).final_result = "ANS hi" :=
  ⟨c2_amended.1 "hi" "this is not a plan".data (by rfl),
   c2_amended.2 c2w_env c2w_client "hi" "ANS hi" st0 rfl (by rfl) (by rfl)⟩

/-- C8: a plan of one Click step whose device call answers a failure
result, followed by one AnswerDirectly step whose provider call
succeeds, still executes the second step, and the Task Result's
`final_result` is the provider's answer — one failing step never
aborts the remaining steps. -/
theorem c8_nonfatal_step (env : Env) (client : ProviderOracle)
    (u sel q ans err : String) (s0 : St)
    (H1 : env.ai_client = some client)
    (H2 : client.plan u = .ok (.obj [("actions", .arr [
            .obj [("type", .str "click"), ("selector", .str sel)],
            .obj [("type", .str "answer_directly"), ("question", .str q)]])]))
    (H3 : sel ≠ "")
    (H4 : env.browser.click sel = .ok ⟨false, some err⟩)
    (H5 : client.generate_response q = .ok ans) :
    (process_user_command env u s0).final_result = ans := by
  simp [process_user_command, process_body, runActions, runAction,
        click_branch, answer_branch, pyDictGet, pyExpectStr, objLookup,
        pyTruthy, pyContains, pySubscript, pyLen, pyIter, Json.isStr,
        pyShow, pyShowOpt, H1, H2, H3, H4, H5,
        log_step, log_ai, log_error, log_browser]

def c8_client : ProviderOracle :=
  ⟨fun _ => .ok (.obj [("actions", .arr [
      .obj [("type", .str "click"), ("selector", .str "button.submit")],
      .obj [("type", .str "answer_directly"), ("question", .str "the question")]])]),
   fun q => .ok ("A:" ++ q), fun _ _ _ => .ok "PROC"⟩

def c8_device : Device :=
  ⟨true, fun _ => .ok ⟨true, none⟩, fun _ => .ok ⟨false, some "no element"⟩,
   fun _ _ => .ok ⟨true, none⟩, fun p => .ok (some p), fun _ => .ok (some "content")⟩

def c8_env : Env := ⟨some c8_client, c8_device, fun _ => "screenshots/shot.png"⟩

theorem c8_nonfatal_step_witness :
    (process_user_command c8_env "do it" st0).final_result = "A:the question" :=
  c8_nonfatal_step c8_env c8_client "do it" "button.submit" "the question"
    "A:the question" "no element" st0 rfl rfl (by decide) rfl rfl

/-- The browse plan of Scenario B: one step, raw URL `example.com`. -/
def c3_plan : Json :=
  .obj [("actions", .arr [.obj [("type", .str "browse"), ("url", .str "example.com")]])]

def c3_client : ProviderOracle :=
  ⟨fun _ => .ok c3_plan, fun q => .ok ("ANS " ++ q), fun _ _ _ => .ok "PROC"⟩

def c3_env : Env := ⟨some c3_client, stubDevice, fun _ => "screenshots/screenshot_1.png"⟩

/-- C3 counterexample: on the interactive device with a successful
navigation and screenshot, the recorded `processed_url` is the *raw*
plan URL `"example.com"`, not the scheme-normalized
`"https://example.com"` the claim asserts — `flask_server.py` line 196
stores the loop's `url` variable, while the `https://` prefix is added
only inside `navigate`.  The screenshot half of the scenario does hold
(`screenshot` is non-null). -/
theorem c3_counterexample :
    (process_user_command c3_env "go to example.com" st0).processed_url =
      some (.str "example.com") ∧
    (process_user_command c3_env "go to example.com" st0).processed_url ≠
      some (.str "https://example.com") ∧
    (process_user_command c3_env "go to example.com" st0).screenshot =
      some "screenshots/screenshot_1.png" ∧
    normalize_url "example.com" = "https://example.com" := by
  refine ⟨rfl, ?_, rfl, rfl⟩
  intro h
  rw [show (process_user_command c3_env "go to example.com" st0).processed_url =
        some (Json.str "example.com") from rfl] at h
  simp at h

/-- C3 amended: for the Scenario B run (successful navigate and
screenshot on the interactive device), `processed_url` equals the raw
plan URL `"example.com"`; the `https://` scheme is prefixed only inside
`navigate` (`normalize_url`), and `screenshot` is the non-null relative
screenshot path. -/
theorem c3_amended (env : Env) (client : ProviderOracle) (s0 : St) (p : String)
    (H1 : env.ai_client = some client)
    (H2 : client.plan "go to example.com" = .ok c3_plan)
    (H3 : env.browser.navigate "example.com" = .ok ⟨true, none⟩)
    (H4 : env.browser.isPlaywright = true)
    (H5 : env.browser.take_screenshot ("static/" ++ env.screenshotRel 0) = .ok (some p)) :
    (process_user_command env "go to example.com" s0).processed_url =
      some (.str "example.com") ∧
    (process_user_command env "go to example.com" s0).screenshot =
      some (env.screenshotRel 0) ∧
    normalize_url "example.com" = "https://example.com" := by
  refine ⟨?_, ?_, rfl⟩ <;>
  simp [process_user_command, process_body, runActions, runAction,
        browse_branch, shotBlock, afterShot, c3_plan, pyDictGet, objLookup,
        pyTruthy, pyContains, pySubscript, pyLen, pyIter, Json.isStr, pyShow,
        H1, H2, H3, H4, H5, log_step, log_ai, log_error, log_browser]

theorem c3_amended_witness :
    (process_user_command c3_env "go to example.com" st0).processed_url =
      some (.str "example.com") ∧
    (process_user_command c3_env "go to example.com" st0).screenshot =
      some "screenshots/screenshot_1.png" ∧
    normalize_url "example.com" = "https://example.com" :=
  c3_amended c3_env c3_client st0 "static/screenshots/screenshot_1.png"
    rfl rfl rfl rfl rfl

def c4_device : Device :=
  ⟨true, fun _ => .ok ⟨false, some "net::ERR_FAILED"⟩, fun _ => .ok ⟨true, none⟩,
   fun _ _ => .ok ⟨true, none⟩, fun p => .ok (some p), fun _ => .ok (some "content")⟩

def c4_client : ProviderOracle :=
  ⟨fun _ => .ok c3_plan, fun q => .ok ("ANS " ++ q), fun _ _ _ => .ok "PROC"⟩

def c4_env : Env := ⟨some c4_client, c4_device, fun _ => "screenshots/shot.png"⟩

/-- C4 counterexample: `flask_server.py` line 196 assigns
`last_processed_url = url` *before* checking `result.get('success')`,
so a failed navigation still overwrites `processed_url` with the step's
URL — the claim says it keeps its prior value (here `none`). -/
theorem c4_counterexample :
    c4_env.browser.navigate "example.com" = .ok ⟨false, some "net::ERR_FAILED"⟩ ∧
    st0.lastUrl = none ∧
    (process_user_command c4_env "go" st0).processed_url = some (.str "example.com") :=
  ⟨rfl, rfl, rfl⟩

/-- C4 amended: `processed_url` is recorded as the step's URL
unconditionally once the navigate call returns — on failure as well as
success; the failure is only logged and execution continues with the
next step (whose answer still becomes `final_result`). -/
theorem c4_amended (env : Env) (client : ProviderOracle)
    (u url q ans err : String) (s0 : St)
    (H1 : env.ai_client = some client)
    (H2 : client.plan u = .ok (.obj [("actions", .arr [
            .obj [("type", .str "browse"), ("url", .str url)],
            .obj [("type", .str "answer_directly"), ("question", .str q)]])]))
    (H3 : url ≠ "")
    (H4 : env.browser.navigate url = .ok ⟨false, some err⟩)
    (H5 : client.generate_response q = .ok ans) :
    (process_user_command env u s0).processed_url = some (.str url) ∧
    (process_user_command env u s0).final_result = ans := by
  constructor <;>
  simp [process_user_command, process_body, runActions, runAction,
        browse_branch, answer_branch, pyDictGet, pyExpectStr, objLookup,
        pyTruthy, pyContains, pySubscript, pyLen, pyIter, Json.isStr,
        pyShow, pyShowOpt, H1, H2, H3, H4, H5,
        log_step, log_ai, log_error, log_browser]

def c4w_client : ProviderOracle :=
  ⟨fun _ => .ok (.obj [("actions", .arr [
      .obj [("type", .str "browse"), ("url", .str "example.com")],
      .obj [("type", .str "answer_directly"), ("question", .str "q1")]])]),
   fun q => .ok ("ANS " ++ q), fun _ _ _ => .ok "PROC"⟩

def c4w_env : Env := ⟨some c4w_client, c4_device, fun _ => "screenshots/shot.png"⟩

theorem c4_amended_witness :
    (process_user_command c4w_env "go" st0).processed_url = some (.str "example.com") ∧
    (process_user_command c4w_env "go" st0).final_result = "ANS q1" :=
  c4_amended c4w_env c4w_client "go" "example.com" "q1" "ANS q1" "net::ERR_FAILED" st0
    rfl rfl (by decide) rfl rfl

/-- The single-line, fence-free provider response whose plan URL holds
a scheme separator. -/
def c5_resp : List Char :=
  "\x7b\"actions\":[\x7b\"type\":\"browse\",\"url\":\"https://example.com\"\x7d]\x7d".data

def c5_browse_plan : Json :=
  .obj [("actions", .arr [.obj [("type", .str "browse"),
                                ("url", .str "https://example.com")]])]

/-- C5: the response is valid JSON and parses to the browse plan, yet
`create_action_plan` returns the fallback plan instead: the comment
stripping `re.sub(r'//.*', '', ...)` removes everything from the `//`
of `https://` to the end of the (single) line, leaving unparseable
text. -/
theorem c5_comment_strip_breaks_scheme_urls :
    pyLoads c5_resp = some c5_browse_plan ∧
    create_action_plan "original input" c5_resp = fallback_plan "original input" ∧
    fallback_plan "original input" ≠ c5_browse_plan := by
  refine ⟨rfl, rfl, ?_⟩
  intro h
  simp [fallback_plan, c5_browse_plan] at h

/-- C7 counterexample: `RequestsBrowser.take_screenshot` returns the
bare null (`None`) — a value carrying no indication of the missing
capability; only the log entry names it.  `click` and `type` do return
failure dicts with a message, but the claim's "each returns an explicit
not-supported failure result identifying the missing capability" fails
for `take_screenshot`. -/
theorem c7_counterexample :
    (requests_take_screenshot (some "shot.png") st0).2 = none ∧
    (requests_take_screenshot (some "shot.png") st0).1.loggerLogs =
      [⟨"error",
        "RequestsBrowser does not support taking screenshots. Use PlaywrightBrowser for this feature.",
        none⟩] :=
  ⟨rfl, rfl⟩

/-- C7 amended: on the content-only device, `click` and `type` never
raise and return explicit not-supported failure results; and
`take_screenshot` never raises and never returns a path — it logs a
not-supported error and returns null (the generic failure value, with
no capability information in the returned value itself). -/
theorem c7_unsupported_capabilities (sel txt : String) (p : Option String) (s : St) :
    (requests_click sel s).2 =
      ⟨false, some "RequestsBrowser does not support clicking elements"⟩ ∧
    (requests_type sel txt s).2 =
      ⟨false, some "RequestsBrowser does not support typing text"⟩ ∧
    (requests_take_screenshot p s).2 = none ∧
    (requests_take_screenshot p s).1 =
      log_error "RequestsBrowser does not support taking screenshots. Use PlaywrightBrowser for this feature." s :=
  ⟨rfl, rfl, rfl, rfl⟩

theorem init_ai_provider_false {C : Type} (env : SwitchEnv C) (p : String)
    (st : AppState C) (h : (init_ai_provider env p st).1 = false) :
    (init_ai_provider env p st).2 = st := by
  unfold init_ai_provider at h ⊢
  repeat' split <;> simp_all

/-- C9: a switch request naming a provider without a resolvable
credential is rejected with a 400 error and the handle is unchanged;
naming the already-active provider is a no-op; a failed construction
(null from the factory, a raised exception, or a missing config
section — all the ways `initialize_ai_provider` answers `False`) leaves
the previous handle intact with a 500 error; and on success the handle
(client and name) is replaced wholesale. -/
theorem c9_switch_contract {C : Type} (env : SwitchEnv C) (p : String)
    (st : AppState C) :
    (p ≠ "" → ¬ env.available.contains p →
       switch_ai_provider env (some p) st =
         (.err 400 ("Provider '" ++ p ++ "' is not available"), st)) ∧
    (p ≠ "" → env.available.contains p → st.current_provider_name = some p →
       switch_ai_provider env (some p) st = (.ok ("Already using " ++ p), st)) ∧
    (p ≠ "" → env.available.contains p → st.current_provider_name ≠ some p →
       (init_ai_provider env p st).1 = false →
       switch_ai_provider env (some p) st =
         (.err 500 ("Failed to switch to " ++ p), st)) ∧
    (∀ c : C, p ≠ "" → env.available.contains p →
       st.current_provider_name ≠ some p →
       env.hasConfig p = true → env.create_provider p = .ok (some c) →
       switch_ai_provider env (some p) st =
         (.ok ("Successfully switched to " ++ p), ⟨some c, some p⟩)) := by
  refine ⟨?_, ?_, ?_, ?_⟩
  · intro hne hna
    have hna' : p ∉ env.available := by simpa using hna
    simp [switch_ai_provider, hne, hna']
  · intro hne ha hcur
    have ha' : p ∈ env.available := by simpa using ha
    simp [switch_ai_provider, hne, ha', hcur]
  · intro hne ha hcur hinit
    have ha' : p ∈ env.available := by simpa using ha
    have hst := init_ai_provider_false env p st hinit
    rcases hi : init_ai_provider env p st with ⟨b, st'⟩
    rw [hi] at hinit hst
    simp only [] at hinit hst
    subst hinit
    subst hst
    simp [switch_ai_provider, hne, ha', hcur, hi]
  · intro c hne ha hcur hcfg hcreate
    have ha' : p ∈ env.available := by simpa using ha
    simp [switch_ai_provider, init_ai_provider, hne, ha', hcur, hcfg, hcreate]

def c9_env : SwitchEnv Nat :=
  ⟨fun n => n = "gemini" || n = "openai",
   fun n => if n = "gemini" then .ok (some 1) else .ok none,
   ["gemini", "openai"]⟩

def c9_st : AppState Nat := ⟨some 0, some "openai"⟩

theorem c9_switch_contract_witness :
    switch_ai_provider c9_env (some "cohere") c9_st =
      (.err 400 "Provider 'cohere' is not available", c9_st) ∧
    switch_ai_provider c9_env (some "openai") c9_st =
      (.ok "Already using openai", c9_st) ∧
    switch_ai_provider c9_env (some "openai") ⟨some 1, some "gemini"⟩ =
      (.err 500 "Failed to switch to openai", ⟨some 1, some "gemini"⟩) ∧
    switch_ai_provider c9_env (some "gemini") c9_st =
      (.ok "Successfully switched to gemini", ⟨some 1, some "gemini"⟩) :=
  ⟨(c9_switch_contract c9_env "cohere" c9_st).1 (by decide) (by decide),
   (c9_switch_contract c9_env "openai" c9_st).2.1 (by decide) (by decide) rfl,
   (c9_switch_contract c9_env "openai" ⟨some 1, some "gemini"⟩).2.2.1
     (by decide) (by decide) (by decide) rfl,
   (c9_switch_contract c9_env "gemini" c9_st).2.2.2 1
     (by decide) (by decide) (by decide) rfl rfl⟩

/-- The C10 counterexample payload and its fenced wrapping with the
embedded comment line between the object and the closing fence. -/
def c10_payload : List Char := "\x7b\"actions\":[]\x7d".data

def c10_wrapped : List Char :=
  "```json\n\x7b\"actions\":[]\x7d\n// comment\n```".data

/-- C10 counterexample: wrapping the plan payload `{"actions":[]}` in a
`json`-labeled fence with a `//` comment line before the closing fence
defeats the extraction regex entirely (the captured `}` must be
followed by only whitespace before ```` ``` ````), so parsing falls
back to the whole response, which no longer parses — the result is the
fallback plan, while the unwrapped comment-stripped payload parses to
the empty-actions plan.  The round-trip law fails. -/
theorem c10_counterexample :
    searchFence c10_wrapped = none ∧
    create_action_plan "original input" c10_wrapped =
      fallback_plan "original input" ∧
    pyLoads (pyStrip (stripComments c10_payload)) =
      some (.obj [("actions", .arr [])]) ∧
    fallback_plan "original input" ≠ .obj [("actions", .arr [])] := by
  refine ⟨rfl, rfl, rfl, ?_⟩
  intro h
  simp [fallback_plan] at h

def c10_good_payload : List Char :=
  "\x7b\"actions\":[\n// list of actions\n\x7b\"type\":\"answer_directly\",\"question\":\"x\"\x7d]\x7d".data

def c10_good_wrapped : List Char :=
  ("```json\n" ++
   "\x7b\"actions\":[\n// list of actions\n\x7b\"type\":\"answer_directly\",\"question\":\"x\"\x7d]\x7d" ++
   "\n```").data

def c10_good_plan : Json :=
  .obj [("actions", .arr [.obj [("type", .str "answer_directly"),
                                ("question", .str "x")]])]

/-- C10 amended: when fence extraction succeeds and the comment-stripped
capture parses, the parsed plan is exactly that of the stripped
capture; and with the comment line embedded *inside* the object (as in
the prompt's own template) the round-trip does hold: the fenced response
parses to the same plan as the unwrapped comment-stripped payload.  A
comment line between the object and the closing fence instead defeats
extraction and yields the fallback plan (see the counterexample). -/
theorem c10_roundtrip_amended :
    (∀ (u : String) (resp cap : List Char) (plan : Json),
        searchFence resp = some cap →
        pyLoads (pyStrip (stripComments cap)) = some plan →
        create_action_plan u resp = plan) ∧
    (create_action_plan "u" c10_good_wrapped = c10_good_plan ∧
     pyLoads (pyStrip (stripComments c10_good_payload)) = some c10_good_plan) := by
  refine ⟨?_, rfl, rfl⟩
  intro u resp cap plan h1 h2
  unfold create_action_plan extract_json_str
  simp only [h1, h2]

theorem c10_roundtrip_amended_witness :
    create_action_plan "u" c10_good_wrapped = c10_good_plan :=
  c10_roundtrip_amended.1 "u" c10_good_wrapped c10_good_payload c10_good_plan
    (by rfl) (by rfl)
